import Mathlib

/-!
Verification of the deployment-health-validator core against its
specification.  The repository ships the test suite
(tests/test_outputs.py) and the mock service endpoints
(environment/mock_services.py); the validator core itself
(/app/validator.py) is not part of the sources, so the core's data model
and operations below are modelled from the specification (spec.md
sections 3, 4.3, 4.4, 4.5, 4.6), while all concrete fixture data
(endpoints, response bodies, criticality tiers, dependency edges) is
taken verbatim from the mock services and the test suite.
-/

namespace DeployHealth

/-- Criticality tier of a service (spec section 3): high, medium or low. -/
inductive Criticality
  | high
  | medium
  | low
deriving DecidableEq, Repr

/-- Expected response shape of a probe target (spec sections 3, 9): either a
JSON object carrying a `status` field, or opaque plain text checked only for
presence. -/
inductive Shape
  | jsonStatusField
  | plainText
deriving DecidableEq, Repr

/-- Modelled from the spec: the Service record of the Manifest Model
(spec section 3), absent from the sources together with the rest of
/app/validator.py.  `name` is the unique identifier, `endpoint` the probe
URL, `shape` the expected response shape, `criticality` the tier, and
`dependencies` the names of the services this one depends on. -/
structure Service where
  name : String
  endpoint : String
  shape : Shape
  criticality : Criticality
  dependencies : List String
deriving DecidableEq, Repr

/-- Modelled from the spec: ProbeOutcome (spec section 3) — per service,
the HTTP status code (absent on transport failure), the raw body string
(absent on transport failure), and whether the transport call failed. -/
structure ProbeOutcome where
  httpStatus : Option Nat
  rawBody : Option String
  error : Bool
deriving DecidableEq, Repr

/-- Health verdict of a single service. -/
inductive Health
  | healthy
  | unhealthy
deriving DecidableEq, Repr

/-- Modelled from the spec: ServiceStatus (spec section 3) — derived by the
classifier: verdict, the probe's HTTP status, and the criticality copied
from the manifest. -/
structure ServiceStatus where
  status : Health
  httpStatus : Option Nat
  criticality : Criticality
deriving DecidableEq, Repr

/-! ### JSON body parsing

Modelled from the spec: the classifier (spec section 4.3) parses the raw
body of a probe according to the expected shape; for the shape
"JSON object with a `status` field" that requires a JSON parser.  The
parser below is a total, fuel-bounded recursive-descent parser for JSON
values (objects, arrays, strings with the common escapes, numbers kept as
raw text, booleans, null). -/

/-- A parsed JSON value.  Numbers are kept as their raw source text: the
classifier only ever inspects string values of the `status` field. -/
inductive Json
  | null
  | bool (b : Bool)
  | num (raw : String)
  | str (s : String)
  | arr (elems : List Json)
  | obj (fields : List (String × Json))
deriving Repr

def quoteChar : Char := Char.ofNat 34

def backslashChar : Char := Char.ofNat 92

def lbraceChar : Char := Char.ofNat 123

def rbraceChar : Char := Char.ofNat 125

def isWsChar (c : Char) : Bool :=
  c = ' ' || c = Char.ofNat 10 || c = Char.ofNat 9 || c = Char.ofNat 13

/-- Drop leading JSON whitespace. -/
def skipWs : List Char → List Char
  | [] => []
  | c :: rest => if isWsChar c then skipWs rest else c :: rest

/-- Parse the remainder of a JSON string literal (the opening quote has
already been consumed), handling the single-character escapes. Returns the
decoded characters and the unconsumed input. -/
def parseStrChars : List Char → Option (List Char × List Char)
  | [] => none
  | c :: rest =>
    if c = quoteChar then some ([], rest)
    else if c = backslashChar then
      match rest with
      | [] => none
      | d :: rest2 =>
        let esc : Option Char :=
          if d = quoteChar then some quoteChar
          else if d = backslashChar then some backslashChar
          else if d = '/' then some '/'
          else if d = 'n' then some (Char.ofNat 10)
          else if d = 't' then some (Char.ofNat 9)
          else if d = 'r' then some (Char.ofNat 13)
          else if d = 'b' then some (Char.ofNat 8)
          else if d = 'f' then some (Char.ofNat 12)
          else none
        match esc with
        | none => none
        | some e =>
          match parseStrChars rest2 with
          | none => none
          | some (cs, rem) => some (e :: cs, rem)
    else
      match parseStrChars rest with
      | none => none
      | some (cs, rem) => some (c :: cs, rem)

def isNumChar (c : Char) : Bool :=
  c.isDigit || c = '-' || c = '+' || c = '.' || c = 'e' || c = 'E'

/-- Split off a maximal run of JSON number characters. -/
def spanNum : List Char → List Char × List Char
  | [] => ([], [])
  | c :: rest =>
    if isNumChar c then
      let (ds, rem) := spanNum rest
      (c :: ds, rem)
    else ([], c :: rest)

mutual

/-- Parse one JSON value; `fuel` bounds the recursion depth. -/
def parseValue : Nat → List Char → Option (Json × List Char)
  | 0, _ => none
  | fuel + 1, input =>
    match skipWs input with
    | [] => none
    | c :: rest =>
      if c = quoteChar then
        match parseStrChars rest with
        | some (cs, rem) => some (Json.str (String.mk cs), rem)
        | none => none
      else if c = lbraceChar then
        match skipWs rest with
        | d :: rest2 =>
          if d = rbraceChar then some (Json.obj [], rest2)
          else parseMembers fuel (d :: rest2) []
        | [] => none
      else if c = '[' then
        match skipWs rest with
        | d :: rest2 =>
          if d = ']' then some (Json.arr [], rest2)
          else parseElems fuel (d :: rest2) []
        | [] => none
      else if c = 't' then
        match rest with
        | 'r' :: 'u' :: 'e' :: rem => some (Json.bool true, rem)
        | _ => none
      else if c = 'f' then
        match rest with
        | 'a' :: 'l' :: 's' :: 'e' :: rem => some (Json.bool false, rem)
        | _ => none
      else if c = 'n' then
        match rest with
        | 'u' :: 'l' :: 'l' :: rem => some (Json.null, rem)
        | _ => none
      else if c = '-' || c.isDigit then
        let (ds, rem) := spanNum (c :: rest)
        some (Json.num (String.mk ds), rem)
      else none

/-- Parse the members of a JSON object after its opening brace (first
member pending), accumulating parsed fields. -/
def parseMembers : Nat → List Char → List (String × Json) →
    Option (Json × List Char)
  | 0, _, _ => none
  | fuel + 1, input, acc =>
    match skipWs input with
    | [] => none
    | c :: rest =>
      if c = quoteChar then
        match parseStrChars rest with
        | none => none
        | some (key, rem1) =>
          match skipWs rem1 with
          | ':' :: rem2 =>
            match parseValue fuel rem2 with
            | none => none
            | some (v, rem3) =>
              match skipWs rem3 with
              | ',' :: rem4 =>
                parseMembers fuel rem4 (acc ++ [(String.mk key, v)])
              | d :: rem4 =>
                if d = rbraceChar then
                  some (Json.obj (acc ++ [(String.mk key, v)]), rem4)
                else none
              | [] => none
          | _ => none
      else none

/-- Parse the elements of a JSON array after its opening bracket (first
element pending), accumulating parsed elements. -/
def parseElems : Nat → List Char → List Json → Option (Json × List Char)
  | 0, _, _ => none
  | fuel + 1, input, acc =>
    match parseValue fuel input with
    | none => none
    | some (v, rem) =>
      match skipWs rem with
      | ',' :: rem2 => parseElems fuel rem2 (acc ++ [v])
      | ']' :: rem2 => some (Json.arr (acc ++ [v]), rem2)
      | _ => none

end

/-- Parse a complete JSON document: one value followed only by whitespace. -/
def parseJson (s : String) : Option Json :=
  match parseValue (s.length + 1) s.data with
  | some (v, rem) => if (skipWs rem).isEmpty then some v else none
  | none => none

/-- Look up a field of a parsed JSON object (first occurrence of the key). -/
def lookupField (fields : List (String × Json)) (key : String) : Option Json :=
  match fields.find? (fun p => p.1 = key) with
  | some p => some p.2
  | none => none

/-- Modelled from the spec: extract the `status` field of a body expected to
be a JSON object (spec section 4.3 rule 3); `none` when the body is
malformed under that shape (not JSON, not an object, no `status` field, or
a non-string `status` value) — spec section 4.3 rule 4. -/
def extractStatusField (body : String) : Option String :=
  match parseJson body with
  | some (Json.obj fields) =>
    match lookupField fields "status" with
    | some (Json.str v) => some v
    | _ => none
  | _ => none

/-! ### Status Classifier (spec section 4.3) -/

/-- Is the recorded HTTP status a 2xx success (absent counts as failure)? -/
def is2xx : Option Nat → Bool
  | some c => decide (200 ≤ c) && decide (c < 300)
  | none => false

/-- Modelled from the spec: the classifier's verdict (spec section 4.3),
absent from the sources together with the rest of /app/validator.py.
Rules in order: transport error → unhealthy; non-2xx status → unhealthy;
else parse the body by shape — JSON `status` field exactly "ok" or
"healthy" → healthy, any other value → unhealthy; plain text → healthy on
any non-empty body; a body malformed under the shape → unhealthy. -/
def classifyHealth (shape : Shape) (o : ProbeOutcome) : Health :=
  if o.error then Health.unhealthy
  else if !is2xx o.httpStatus then Health.unhealthy
  else
    match o.rawBody with
    | none => Health.unhealthy
    | some body =>
      match shape with
      | Shape.jsonStatusField =>
        match extractStatusField body with
        | some v =>
          if v = "ok" || v = "healthy" then Health.healthy
          else Health.unhealthy
        | none => Health.unhealthy
      | Shape.plainText =>
        if body.isEmpty then Health.unhealthy else Health.healthy

/-- Modelled from the spec: `classify(service, outcome) -> ServiceStatus`
(spec sections 4.3, 3): the verdict from `classifyHealth`, the probe's
HTTP status carried over unchanged, the criticality copied from the
manifest. -/
def classify (svc : Service) (o : ProbeOutcome) : ServiceStatus :=
  { status := classifyHealth svc.shape o
    httpStatus := o.httpStatus
    criticality := svc.criticality }

/-! ### Readiness Scorer (spec section 4.5) -/

/-- Criticality weights: high = 3, medium = 2, low = 1 (spec section 4.5). -/
def weight : Criticality → Nat
  | Criticality.high => 3
  | Criticality.medium => 2
  | Criticality.low => 1

/-- Sum of the criticality weights of all classified services. -/
def totalWeight (statuses : List ServiceStatus) : Nat :=
  (statuses.map (fun st => weight st.criticality)).sum

/-- Sum of the criticality weights of the healthy classified services. -/
def healthyWeight (statuses : List ServiceStatus) : Nat :=
  ((statuses.filter (fun st => st.status = Health.healthy)).map
    (fun st => weight st.criticality)).sum

/-- Modelled from the spec: `readiness_score` (spec section 4.5) — the
weighted fraction of healthy services, as an exact rational. -/
def readinessScore (statuses : List ServiceStatus) : ℚ :=
  (healthyWeight statuses : ℚ) / (totalWeight statuses : ℚ)

/-- Modelled from the spec: `critical_services_healthy` (spec section 4.5)
— true iff every service of high criticality is healthy. -/
def criticalServicesHealthy (statuses : List ServiceStatus) : Bool :=
  statuses.all
    (fun st => decide (st.criticality = Criticality.high →
      st.status = Health.healthy))

/-- Overall deployment status (spec section 3). -/
inductive Overall
  | healthy
  | degraded
  | unhealthy
deriving DecidableEq, Repr

/-- Modelled from the spec: overall status derivation (spec section 4.5),
evaluated in order — any unhealthy high-criticality service → unhealthy;
else score at least 0.95 → healthy; else degraded. -/
def overallStatus (statuses : List ServiceStatus) : Overall :=
  if criticalServicesHealthy statuses then
    if (95 / 100 : ℚ) ≤ readinessScore statuses then Overall.healthy
    else Overall.degraded
  else Overall.unhealthy

/-! ### Dependency Sequencer (spec section 4.4) -/

/-- Are all the dependencies of `s` already placed in the startup order? -/
def depsSatisfied (s : Service) (placed : List String) : Bool :=
  s.dependencies.all (fun d => placed.contains d)

/-- Is `s` ready to be placed next: not yet placed, dependencies placed? -/
def readyB (placed : List String) (s : Service) : Bool :=
  !placed.contains s.name && depsSatisfied s placed

/-- The first service in manifest declaration order that is ready — the
spec's tie-break rule (spec section 4.4). -/
def pickReady (services : List Service) (placed : List String) :
    Option Service :=
  services.find? (readyB placed)

/-- Modelled from the spec: one Kahn step per unit of fuel — repeatedly
append the first ready service; `none` models `CycleError` when no service
is ready before everything is placed. -/
def sequenceAux (services : List Service) :
    Nat → List String → Option (List String)
  | 0, placed => some placed
  | fuel + 1, placed =>
    match pickReady services placed with
    | some s => sequenceAux services fuel (placed ++ [s.name])
    | none => none

/-- Modelled from the spec: `sequence(services)` (spec section 4.4) — a
deterministic topological sort of the dependency graph, ties broken by
manifest declaration order, `none` on a cyclic graph (`CycleError`). -/
def sequence (services : List Service) : Option (List String) :=
  sequenceAux services services.length []

/-! ### Manifest validation and the Report Builder (spec sections 4.1, 4.6) -/

/-- The manifest's service names in declaration order. -/
def manifestNames (services : List Service) : List String :=
  services.map Service.name

/-- Every declared dependency references a service of the manifest. -/
def depsKnown (services : List Service) : Bool :=
  services.all (fun s =>
    s.dependencies.all (fun d => (manifestNames services).contains d))

/-- Modelled from the spec: manifest validation (spec section 4.1) — fails
(`ManifestError`) on duplicate names, an unknown dependency reference, or
a dependency cycle. -/
def validManifest (services : List Service) : Bool :=
  decide (manifestNames services).Nodup && depsKnown services &&
    (sequence services).isSome

/-- Modelled from the spec: the DeploymentReport root aggregate (spec
section 3).  The generation timestamp is an I/O concern of the Report
Builder and carries no decision logic, so it is not part of this pure
model. -/
structure DeploymentReport where
  deployment_name : String
  overall_status : Overall
  readiness_score : ℚ
  service_statuses : List (String × ServiceStatus)
  startup_order : List String
  critical_services_healthy : Bool
deriving DecidableEq, Repr

/-- Modelled from the spec: one validation run over given probe outcomes
(spec sections 4.6, 7) — `none` models the fatal `ManifestError`
(duplicate names, unknown reference, cycle); otherwise every manifest
service is classified and the report assembled.  Outcomes are keyed by
service name (spec section 5). -/
def runValidation (name : String) (services : List Service)
    (outcomes : String → ProbeOutcome) : Option DeploymentReport :=
  if validManifest services then
    match sequence services with
    | some order =>
      let entries := services.map (fun s => (s.name, classify s (outcomes s.name)))
      let stList := entries.map Prod.snd
      some
        { deployment_name := name
          overall_status := overallStatus stList
          readiness_score := readinessScore stList
          service_statuses := entries
          startup_order := order
          critical_services_healthy := criticalServicesHealthy stList }
    | none => none
  else none

/-! ### The five-service fixture

Endpoints, response bodies and HTTP statuses are taken verbatim from
environment/mock_services.py; criticality tiers and dependency edges from
tests/test_outputs.py (an edge "A depends on B" makes B a dependency of
A, so B must start first). -/

def authService : Service :=
  { name := "auth-service"
    endpoint := "http://localhost:8081/health"
    shape := Shape.jsonStatusField
    criticality := Criticality.high
    dependencies := [] }

def apiGateway : Service :=
  { name := "api-gateway"
    endpoint := "http://localhost:8082/health"
    shape := Shape.jsonStatusField
    criticality := Criticality.high
    dependencies := ["auth-service", "cache-service"] }

def cacheService : Service :=
  { name := "cache-service"
    endpoint := "http://localhost:8083/ping"
    shape := Shape.plainText
    criticality := Criticality.medium
    dependencies := [] }

def workerService : Service :=
  { name := "worker-service"
    endpoint := "http://localhost:8084/status"
    shape := Shape.jsonStatusField
    criticality := Criticality.low
    dependencies := ["api-gateway"] }

def notificationService : Service :=
  { name := "notification-service"
    endpoint := "http://localhost:8085/health"
    shape := Shape.jsonStatusField
    criticality := Criticality.low
    dependencies := ["worker-service"] }

/-- The production-stack manifest in declaration order (the order the
test suite lists the services in). -/
def fixtureManifest : List Service :=
  [authService, apiGateway, cacheService, workerService, notificationService]

def authBody : String :=
  "\x7b\"status\": \"ok\", \"version\": \"2.1.0\"\x7d"

def gatewayBody : String :=
  "\x7b\"status\": \"healthy\", \"uptime_seconds\": 3601\x7d"

def cacheBody : String := "pong"

def workerBody : String :=
  "\x7b\"status\": \"degraded\", \"queue_depth\": 1482\x7d"

def notificationBody : String :=
  "\x7b\"status\": \"ok\", \"pending_notifications\": 0\x7d"

def authOutcome : ProbeOutcome :=
  { httpStatus := some 200, rawBody := some authBody, error := false }

def gatewayOutcome : ProbeOutcome :=
  { httpStatus := some 200, rawBody := some gatewayBody, error := false }

def cacheOutcome : ProbeOutcome :=
  { httpStatus := some 200, rawBody := some cacheBody, error := false }

def workerOutcome : ProbeOutcome :=
  { httpStatus := some 200, rawBody := some workerBody, error := false }

def notificationOutcome : ProbeOutcome :=
  { httpStatus := some 200, rawBody := some notificationBody, error := false }

/-- The probe outcomes of the fixture run, keyed by service name. -/
def fixtureOutcomes (name : String) : ProbeOutcome :=
  if name = "auth-service" then authOutcome
  else if name = "api-gateway" then gatewayOutcome
  else if name = "cache-service" then cacheOutcome
  else if name = "worker-service" then workerOutcome
  else if name = "notification-service" then notificationOutcome
  else { httpStatus := none, rawBody := none, error := true }

/-- The fixture validation run. -/
def fixtureRun : Option DeploymentReport :=
  runValidation "production-stack" fixtureManifest fixtureOutcomes

/-- Acyclicity of the manifest's dependency graph (spec section 3): the
dependency relation embeds into a well-founded rank on names, which for a
finite graph is equivalent to having no directed cycle. -/
def Acyclic (services : List Service) : Prop :=
  ∃ rank : String → Nat,
    ∀ s ∈ services, ∀ d ∈ s.dependencies, rank d < rank s.name

/-- A rank function witnessing that the fixture manifest is acyclic. -/
def fixtureRank (n : String) : Nat :=
  if n = "api-gateway" then 1
  else if n = "worker-service" then 2
  else if n = "notification-service" then 3
  else 0

/-- The classified statuses the fixture run is expected to produce
(tests/test_outputs.py, service status tests). -/
def expectedStatuses : List (String × ServiceStatus) :=
  [("auth-service",
    { status := Health.healthy, httpStatus := some 200
      criticality := Criticality.high }),
   ("api-gateway",
    { status := Health.healthy, httpStatus := some 200
      criticality := Criticality.high }),
   ("cache-service",
    { status := Health.healthy, httpStatus := some 200
      criticality := Criticality.medium }),
   ("worker-service",
    { status := Health.unhealthy, httpStatus := some 200
      criticality := Criticality.low }),
   ("notification-service",
    { status := Health.healthy, httpStatus := some 200
      criticality := Criticality.low })]

/-- The expected statuses without their names. -/
def expectedStatusList : List ServiceStatus :=
  [{ status := Health.healthy, httpStatus := some 200
     criticality := Criticality.high },
   { status := Health.healthy, httpStatus := some 200
     criticality := Criticality.high },
   { status := Health.healthy, httpStatus := some 200
     criticality := Criticality.medium },
   { status := Health.unhealthy, httpStatus := some 200
     criticality := Criticality.low },
   { status := Health.healthy, httpStatus := some 200
     criticality := Criticality.low }]

/-- The startup order of the fixture manifest: Kahn's algorithm with the
manifest-declaration-order tie-break. -/
def expectedOrder : List String :=
  ["auth-service", "cache-service", "api-gateway", "worker-service",
   "notification-service"]

/-- The full report the fixture run is expected to produce
(tests/test_outputs.py). -/
def expectedReport : DeploymentReport :=
  { deployment_name := "production-stack"
    overall_status := Overall.degraded
    readiness_score := 9 / 10
    service_statuses := expectedStatuses
    startup_order := expectedOrder
    critical_services_healthy := true }

/-- Probe outcomes in which every transport call failed — used to show the
startup order does not depend on probe outcomes. -/
def allErrorOutcomes (_ : String) : ProbeOutcome :=
  { httpStatus := none, rawBody := none, error := true }

/-- The per-service statuses produced when every probe fails. -/
def errorStatuses : List (String × ServiceStatus) :=
  [("auth-service",
    { status := Health.unhealthy, httpStatus := none
      criticality := Criticality.high }),
   ("api-gateway",
    { status := Health.unhealthy, httpStatus := none
      criticality := Criticality.high }),
   ("cache-service",
    { status := Health.unhealthy, httpStatus := none
      criticality := Criticality.medium }),
   ("worker-service",
    { status := Health.unhealthy, httpStatus := none
      criticality := Criticality.low }),
   ("notification-service",
    { status := Health.unhealthy, httpStatus := none
      criticality := Criticality.low })]

/-- The error-run statuses without their names. -/
def errorStatusList : List ServiceStatus :=
  [{ status := Health.unhealthy, httpStatus := none
     criticality := Criticality.high },
   { status := Health.unhealthy, httpStatus := none
     criticality := Criticality.high },
   { status := Health.unhealthy, httpStatus := none
     criticality := Criticality.medium },
   { status := Health.unhealthy, httpStatus := none
     criticality := Criticality.low },
   { status := Health.unhealthy, httpStatus := none
     criticality := Criticality.low }]

/-- The report produced when every probe fails: same startup order, all
services unhealthy. -/
def errorReport : DeploymentReport :=
  { deployment_name := "production-stack"
    overall_status := Overall.unhealthy
    readiness_score := 0
    service_statuses := errorStatuses
    startup_order := expectedOrder
    critical_services_healthy := false }

/-- An outcome whose body is not parseable as JSON. -/
def malformedOutcome : ProbeOutcome :=
  { httpStatus := some 200, rawBody := some "no json here", error := false }

/-! ### Helper lemmas -/

lemma health_cases (h : Health) :
    h = Health.healthy ∨ h = Health.unhealthy := by
  cases h
  · exact Or.inl rfl
  · exact Or.inr rfl

lemma health_ne_healthy {h : Health} :
    h ≠ Health.healthy ↔ h = Health.unhealthy := by
  cases h <;> simp

lemma criticalServicesHealthy_eq_true_iff (l : List ServiceStatus) :
    criticalServicesHealthy l = true ↔
      ∀ st ∈ l, st.criticality = Criticality.high →
        st.status = Health.healthy := by
  unfold criticalServicesHealthy
  rw [List.all_eq_true]
  simp only [decide_eq_true_eq]

lemma criticalServicesHealthy_eq_false_iff (l : List ServiceStatus) :
    criticalServicesHealthy l = false ↔
      ∃ st ∈ l, st.criticality = Criticality.high ∧
        st.status = Health.unhealthy := by
  rw [Bool.eq_false_iff, Ne, criticalServicesHealthy_eq_true_iff]
  push_neg
  constructor
  · rintro ⟨st, hmem, hcrit, hne⟩
    exact ⟨st, hmem, hcrit, health_ne_healthy.mp hne⟩
  · rintro ⟨st, hmem, hcrit, hst⟩
    exact ⟨st, hmem, hcrit, health_ne_healthy.mpr hst⟩

lemma healthyWeight_le_totalWeight (l : List ServiceStatus) :
    healthyWeight l ≤ totalWeight l := by
  unfold healthyWeight totalWeight
  exact List.Sublist.sum_le_sum
    (List.Sublist.map _ (List.filter_sublist l))
    (fun a _ => Nat.zero_le a)

lemma classify_error_unhealthy (svc : Service) (o : ProbeOutcome)
    (h : o.error = true) :
    (classify svc o).status = Health.unhealthy := by
  simp [classify, classifyHealth, h]

lemma classify_unparseable_unhealthy (svc : Service) (o : ProbeOutcome)
    (body : String) (hshape : svc.shape = Shape.jsonStatusField)
    (hbody : o.rawBody = some body)
    (hext : extractStatusField body = none) :
    (classify svc o).status = Health.unhealthy := by
  unfold classify classifyHealth
  cases herr : o.error
  · cases h2 : is2xx o.httpStatus
    · simp [herr, h2]
    · simp [herr, h2, hbody, hshape, hext]
  · simp [herr]

/-! ### Evaluation of the fixture and error runs -/

lemma fixture_entries_eq :
    fixtureManifest.map
      (fun s => (s.name, classify s (fixtureOutcomes s.name))) =
    expectedStatuses := by decide

lemma fixture_snd_eq :
    expectedStatuses.map Prod.snd = expectedStatusList := by decide

lemma fixture_healthyWeight : healthyWeight expectedStatusList = 9 := by
  decide

lemma fixture_totalWeight : totalWeight expectedStatusList = 10 := by
  decide

lemma fixture_score : readinessScore expectedStatusList = 9 / 10 := by
  unfold readinessScore
  rw [fixture_healthyWeight, fixture_totalWeight]
  norm_num

lemma fixture_critical :
    criticalServicesHealthy expectedStatusList = true := by decide

lemma fixture_overall :
    overallStatus expectedStatusList = Overall.degraded := by
  unfold overallStatus
  rw [fixture_critical, if_pos rfl,
    if_neg (by rw [fixture_score]; norm_num)]

lemma fixture_sequence_eq : sequence fixtureManifest = some expectedOrder := by
  decide

lemma fixture_valid : validManifest fixtureManifest = true := by decide

lemma fixtureRun_eq : fixtureRun = some expectedReport := by
  unfold fixtureRun runValidation
  rw [if_pos fixture_valid, fixture_sequence_eq]
  simp only [fixture_entries_eq, fixture_snd_eq, fixture_score,
    fixture_overall, fixture_critical]
  rfl

lemma error_entries_eq :
    fixtureManifest.map
      (fun s => (s.name, classify s (allErrorOutcomes s.name))) =
    errorStatuses := by decide

lemma error_snd_eq :
    errorStatuses.map Prod.snd = errorStatusList := by decide

lemma error_score : readinessScore errorStatusList = 0 := by
  unfold readinessScore
  norm_num [show healthyWeight errorStatusList = 0 from by decide]

lemma error_critical :
    criticalServicesHealthy errorStatusList = false := by decide

lemma error_overall :
    overallStatus errorStatusList = Overall.unhealthy := by
  unfold overallStatus
  rw [error_critical, if_neg (by simp)]

lemma errorRun_eq :
    runValidation "production-stack" fixtureManifest allErrorOutcomes =
      some errorReport := by
  unfold runValidation
  rw [if_pos fixture_valid, fixture_sequence_eq]
  simp only [error_entries_eq, error_snd_eq, error_score,
    error_overall, error_critical]
  rfl

/-! ### Sequencer lemmas -/

lemma readyB_eq_true_iff {placed : List String} {s : Service} :
    readyB placed s = true ↔
      s.name ∉ placed ∧ ∀ d ∈ s.dependencies, d ∈ placed := by
  unfold readyB depsSatisfied
  simp [List.contains, List.all_eq_true]

lemma exists_min_rank {α : Type} (f : α → Nat) :
    ∀ l : List α, l ≠ [] → ∃ a ∈ l, ∀ b ∈ l, f a ≤ f b := by
  intro l
  induction l with
  | nil => intro h; exact absurd rfl h
  | cons x xs ih =>
    intro _
    by_cases hx : xs = []
    · subst hx
      exact ⟨x, by simp, by simp⟩
    · obtain ⟨a, ha, hmin⟩ := ih hx
      by_cases hfa : f x ≤ f a
      · refine ⟨x, by simp, ?_⟩
        intro b hb
        rcases List.mem_cons.mp hb with rfl | hb'
        · exact Nat.le_refl _
        · exact Nat.le_trans hfa (hmin b hb')
      · refine ⟨a, List.mem_cons_of_mem _ ha, ?_⟩
        intro b hb
        rcases List.mem_cons.mp hb with rfl | hb'
        · exact Nat.le_of_lt (Nat.lt_of_not_le hfa)
        · exact hmin b hb'

lemma find?_first_index_le {α : Type} [DecidableEq α] (p : α → Bool)
    (l : List α) (s t : α) (hf : l.find? p = some s) (ht : t ∈ l)
    (hpt : p t = true) :
    l.indexOf s ≤ l.indexOf t := by
  obtain ⟨hps, as, bs, rfl, hall⟩ := List.find?_eq_some.mp hf
  have hsnotin : s ∉ as := fun h => by
    have := hall s h
    rw [hps] at this
    simp at this
  have htnotin : t ∉ as := fun h => by
    have := hall t h
    rw [hpt] at this
    simp at this
  rw [List.indexOf_append_of_not_mem hsnotin,
    List.indexOf_append_of_not_mem htnotin]
  apply Nat.add_le_add_left
  rw [List.indexOf_cons_self]
  exact Nat.zero_le _

lemma pickReady_progress (services : List Service) (rank : String → Nat)
    (hrank : ∀ s ∈ services, ∀ d ∈ s.dependencies, rank d < rank s.name)
    (hnodup : (manifestNames services).Nodup)
    (hknown : ∀ s ∈ services, ∀ d ∈ s.dependencies,
      d ∈ manifestNames services)
    (placed : List String)
    (_hnd : placed.Nodup)
    (_hsub : ∀ n ∈ placed, n ∈ manifestNames services)
    (hlt : placed.length < services.length) :
    ∃ s, pickReady services placed = some s ∧ s ∈ services ∧
      readyB placed s = true := by
  have hU : ∃ u ∈ services, u.name ∉ placed := by
    by_contra hall
    push_neg at hall
    have hsubset : manifestNames services ⊆ placed := by
      intro n hn
      obtain ⟨s, hs, rfl⟩ := List.mem_map.mp hn
      exact hall s hs
    have hle := (hnodup.subperm hsubset).length_le
    have hlenm : (manifestNames services).length = services.length :=
      List.length_map _ _
    omega
  obtain ⟨u0, hu0mem, hu0⟩ := hU
  have hUne : services.filter (fun s => decide (s.name ∉ placed)) ≠ [] :=
    List.ne_nil_of_mem (List.mem_filter.mpr ⟨hu0mem, by simp [hu0]⟩)
  obtain ⟨u, huU, humin⟩ :=
    exists_min_rank (fun s => rank s.name) _ hUne
  have humem : u ∈ services := (List.mem_filter.mp huU).1
  have hunotp : u.name ∉ placed := by
    have := (List.mem_filter.mp huU).2
    simpa using this
  have hready : readyB placed u = true := by
    rw [readyB_eq_true_iff]
    refine ⟨hunotp, ?_⟩
    intro d hd
    by_contra hdp
    obtain ⟨t, htmem, htname⟩ := List.mem_map.mp (hknown u humem d hd)
    have htU : t ∈ services.filter (fun s => decide (s.name ∉ placed)) :=
      List.mem_filter.mpr ⟨htmem, by simp [htname, hdp]⟩
    have h1 := humin t htU
    have h2 := hrank u humem d hd
    rw [htname] at h1
    omega
  have hsome : (services.find? (readyB placed)).isSome :=
    List.find?_isSome.mpr ⟨u, humem, hready⟩
  obtain ⟨s, hs⟩ := Option.isSome_iff_exists.mp hsome
  exact ⟨s, hs, List.mem_of_find?_eq_some hs, List.find?_some hs⟩

lemma sequenceAux_spec (services : List Service)
    (hnodup : (manifestNames services).Nodup)
    (hknown : ∀ s ∈ services, ∀ d ∈ s.dependencies,
      d ∈ manifestNames services)
    (rank : String → Nat)
    (hrank : ∀ s ∈ services, ∀ d ∈ s.dependencies, rank d < rank s.name) :
    ∀ (fuel : Nat) (placed : List String),
      fuel + placed.length = services.length →
      placed.Nodup →
      (∀ n ∈ placed, n ∈ manifestNames services) →
      (∀ s ∈ services, s.name ∈ placed → ∀ d ∈ s.dependencies,
        d ∈ placed ∧ placed.indexOf d < placed.indexOf s.name) →
      ∃ order, sequenceAux services fuel placed = some order ∧
        order.Nodup ∧
        (∀ n ∈ order, n ∈ manifestNames services) ∧
        order.length = services.length ∧
        (∀ s ∈ services, s.name ∈ order → ∀ d ∈ s.dependencies,
          d ∈ order ∧ order.indexOf d < order.indexOf s.name) := by
  intro fuel
  induction fuel with
  | zero =>
    intro placed hlen hnd hsub hinv
    exact ⟨placed, rfl, hnd, hsub, by omega, hinv⟩
  | succ fuel ih =>
    intro placed hlen hnd hsub hinv
    obtain ⟨s, hpick, hsmem, hready⟩ :=
      pickReady_progress services rank hrank hnodup hknown placed hnd
        hsub (by omega)
    obtain ⟨hnotp, hdeps⟩ := readyB_eq_true_iff.mp hready
    have hstep : sequenceAux services (fuel + 1) placed =
        sequenceAux services fuel (placed ++ [s.name]) := by
      rw [sequenceAux, hpick]
    rw [hstep]
    apply ih (placed ++ [s.name])
    · simp only [List.length_append, List.length_singleton]
      omega
    · simp [List.nodup_append, hnd, hnotp]
    · intro n hn
      rcases List.mem_append.mp hn with hn' | hn'
      · exact hsub n hn'
      · rw [List.mem_singleton.mp hn']
        exact List.mem_map.mpr ⟨s, hsmem, rfl⟩
    · intro t htmem htin d hd
      rcases List.mem_append.mp htin with htp | hts
      · obtain ⟨hdp, hidx⟩ := hinv t htmem htp d hd
        refine ⟨List.mem_append_left _ hdp, ?_⟩
        rw [List.indexOf_append_of_mem hdp, List.indexOf_append_of_mem htp]
        exact hidx
      · have hname : t.name = s.name := List.mem_singleton.mp hts
        have hts' : t = s :=
          List.inj_on_of_nodup_map hnodup htmem hsmem hname
        subst hts'
        have hdp : d ∈ placed := hdeps d hd
        refine ⟨List.mem_append_left _ hdp, ?_⟩
        rw [List.indexOf_append_of_mem hdp,
          List.indexOf_append_of_not_mem hnotp, List.indexOf_cons_self]
        have := List.indexOf_lt_length.mpr hdp
        omega

lemma runValidation_startup_order (name : String)
    (services : List Service) (outcomes : String → ProbeOutcome)
    (r : DeploymentReport)
    (h : runValidation name services outcomes = some r) :
    sequence services = some r.startup_order := by
  unfold runValidation at h
  by_cases hv : validManifest services = true
  · rw [if_pos hv] at h
    cases hs : sequence services with
    | none => rw [hs] at h; cases h
    | some order =>
      rw [hs] at h
      cases h
      rfl
  · rw [if_neg hv] at h
    cases h

/-! ### The claims -/

/-- C1: for a service whose expected shape is a JSON object with a `status`
field and a probe outcome with no transport error and a 2xx HTTP status,
the classifier returns `healthy` exactly when the parsed body's `status`
field is the string "ok" or "healthy", and `unhealthy` for any other parse
result (for example "degraded") even though the HTTP status was 2xx. -/
theorem classify_json_two_xx_spec (svc : Service) (o : ProbeOutcome)
    (c : Nat) (body : String)
    (hshape : svc.shape = Shape.jsonStatusField)
    (herr : o.error = false)
    (hstat : o.httpStatus = some c)
    (hlo : 200 ≤ c) (hhi : c < 300)
    (hbody : o.rawBody = some body) :
    ((classify svc o).status = Health.healthy ↔
      (extractStatusField body = some "ok" ∨
        extractStatusField body = some "healthy")) ∧
    ((classify svc o).status = Health.unhealthy ↔
      ¬(extractStatusField body = some "ok" ∨
        extractStatusField body = some "healthy")) := by
  have h2 : is2xx o.httpStatus = true := by
    rw [hstat]; simp [is2xx, hlo, hhi]
  unfold classify classifyHealth
  rw [herr, h2, hbody, hshape]
  cases hx : extractStatusField body with
  | none => simp [hx]
  | some v =>
    by_cases hv : v = "ok" ∨ v = "healthy"
    · simp [hx, hv]
    · simp [hx, hv]

/-- Witness for C1 at the fixture's worker-service outcome: HTTP 200 with
body status "degraded" classifies as unhealthy. -/
theorem classify_json_two_xx_spec_witness :
    (classify workerService workerOutcome).status = Health.unhealthy :=
  (classify_json_two_xx_spec workerService workerOutcome 200 workerBody
    rfl rfl rfl (by decide) (by decide) rfl).2.mpr (by decide)

/-- C2: for every set of classified service statuses, the derived overall
status is unhealthy iff some high-criticality service is unhealthy
(regardless of the readiness score); it is healthy iff there is no such
failure and the score is at least 0.95; and degraded iff there is no such
failure and the score is below 0.95. -/
theorem overall_status_spec (l : List ServiceStatus) :
    (overallStatus l = Overall.unhealthy ↔
      ∃ st ∈ l, st.criticality = Criticality.high ∧
        st.status = Health.unhealthy) ∧
    (overallStatus l = Overall.healthy ↔
      (¬∃ st ∈ l, st.criticality = Criticality.high ∧
        st.status = Health.unhealthy) ∧
        (95 / 100 : ℚ) ≤ readinessScore l) ∧
    (overallStatus l = Overall.degraded ↔
      (¬∃ st ∈ l, st.criticality = Criticality.high ∧
        st.status = Health.unhealthy) ∧
        ¬(95 / 100 : ℚ) ≤ readinessScore l) := by
  have hex := criticalServicesHealthy_eq_false_iff l
  unfold overallStatus
  cases hc : criticalServicesHealthy l with
  | false =>
    have he := hex.mp hc
    simp [he]
  | true =>
    have he : ¬∃ st ∈ l, st.criticality = Criticality.high ∧
        st.status = Health.unhealthy := by
      rw [← hex, hc]
      simp
    by_cases hs : (95 / 100 : ℚ) ≤ readinessScore l
    · simp [hs, he]
    · simp [hs, he]

/-- Witness for C2 at the fixture's classified statuses: no high failure
and a score below 0.95 yield the degraded verdict. -/
theorem overall_status_spec_witness :
    overallStatus expectedStatusList = Overall.degraded :=
  (overall_status_spec expectedStatusList).2.2.mpr
    ⟨by decide, by rw [fixture_score]; norm_num⟩

/-- C3: the readiness score equals the sum of the criticality weights
(high = 3, medium = 2, low = 1) of the healthy services divided by the sum
of the weights of all services, and lies in the closed interval from 0
to 1. -/
theorem readiness_score_spec (l : List ServiceStatus) :
    readinessScore l =
      (((l.filter (fun st => st.status = Health.healthy)).map
          (fun st => weight st.criticality)).sum : ℚ) /
        ((l.map (fun st => weight st.criticality)).sum : ℚ) ∧
    0 ≤ readinessScore l ∧ readinessScore l ≤ 1 := by
  refine ⟨rfl, div_nonneg (Nat.cast_nonneg _) (Nat.cast_nonneg _), ?_⟩
  unfold readinessScore
  rcases Nat.eq_zero_or_pos (totalWeight l) with h0 | hpos
  · rw [h0]
    simp
  · rw [div_le_one (by exact_mod_cast hpos)]
    exact_mod_cast healthyWeight_le_totalWeight l

/-- Witness for C3 at the fixture's classified statuses. -/
theorem readiness_score_spec_witness :
    readinessScore expectedStatusList =
      (((expectedStatusList.filter
            (fun st => st.status = Health.healthy)).map
          (fun st => weight st.criticality)).sum : ℚ) /
        ((expectedStatusList.map
            (fun st => weight st.criticality)).sum : ℚ) ∧
    0 ≤ readinessScore expectedStatusList ∧
    readinessScore expectedStatusList ≤ 1 :=
  readiness_score_spec expectedStatusList

/-- C4: `critical_services_healthy` is true iff every service of high
criticality is healthy, and the flag is unchanged when the medium- and
low-criticality services are discarded, so their statuses have no effect
on it. -/
theorem critical_services_healthy_spec (l : List ServiceStatus) :
    (criticalServicesHealthy l = true ↔
      ∀ st ∈ l, st.criticality = Criticality.high →
        st.status = Health.healthy) ∧
    criticalServicesHealthy l =
      criticalServicesHealthy
        (l.filter (fun st => st.criticality = Criticality.high)) := by
  refine ⟨criticalServicesHealthy_eq_true_iff l, ?_⟩
  rw [Bool.eq_iff_iff, criticalServicesHealthy_eq_true_iff,
    criticalServicesHealthy_eq_true_iff]
  constructor
  · intro h st hst
    exact h st (List.mem_filter.mp hst).1
  · intro h st hmem hcrit
    exact h st (List.mem_filter.mpr ⟨hmem, by simp [hcrit]⟩) hcrit

/-- Witness for C4 at the fixture's classified statuses. -/
theorem critical_services_healthy_spec_witness :
    (criticalServicesHealthy expectedStatusList = true ↔
      ∀ st ∈ expectedStatusList, st.criticality = Criticality.high →
        st.status = Health.healthy) ∧
    criticalServicesHealthy expectedStatusList =
      criticalServicesHealthy
        (expectedStatusList.filter
          (fun st => st.criticality = Criticality.high)) :=
  critical_services_healthy_spec expectedStatusList

/-- C6: on the concrete five-service deployment (auth-service high
healthy, api-gateway high healthy, cache-service medium healthy via
plain-text probe, worker-service low unhealthy despite HTTP 200 with body
status "degraded", notification-service low healthy; gateway depending on
auth and cache, worker on gateway, notification on worker) the report has
readiness score 0.9, critical services healthy, overall status degraded,
and a startup order placing auth-service and cache-service before
api-gateway, api-gateway before worker-service, and worker-service before
notification-service. -/
theorem fixture_end_to_end_spec :
    ∃ r, fixtureRun = some r ∧
      r.readiness_score = 9 / 10 ∧
      r.critical_services_healthy = true ∧
      r.overall_status = Overall.degraded ∧
      r.service_statuses = expectedStatuses ∧
      r.startup_order.indexOf "auth-service" <
        r.startup_order.indexOf "api-gateway" ∧
      r.startup_order.indexOf "cache-service" <
        r.startup_order.indexOf "api-gateway" ∧
      r.startup_order.indexOf "api-gateway" <
        r.startup_order.indexOf "worker-service" ∧
      r.startup_order.indexOf "worker-service" <
        r.startup_order.indexOf "notification-service" :=
  ⟨expectedReport, fixtureRun_eq, rfl, rfl, rfl, rfl,
    by decide, by decide, by decide, by decide⟩

/-- C7: no individual service's transport or parse failure aborts the run:
when the manifest is structurally valid the run produces a report with an
entry for every manifest service, transport failures and unparseable
bodies appearing as unhealthy statuses; only a structurally invalid
manifest (duplicate names, unknown reference, cycle) makes the whole run
fail. -/
theorem validation_completeness_spec (name : String)
    (services : List Service) (outcomes : String → ProbeOutcome) :
    (validManifest services = false →
      runValidation name services outcomes = none) ∧
    (validManifest services = true →
      ∃ report, runValidation name services outcomes = some report ∧
        report.service_statuses.map Prod.fst = manifestNames services ∧
        (∀ s ∈ services,
          (s.name, classify s (outcomes s.name)) ∈
            report.service_statuses) ∧
        (∀ s ∈ services, (outcomes s.name).error = true →
          (classify s (outcomes s.name)).status = Health.unhealthy) ∧
        (∀ s ∈ services, ∀ body, s.shape = Shape.jsonStatusField →
          (outcomes s.name).rawBody = some body →
          extractStatusField body = none →
          (classify s (outcomes s.name)).status = Health.unhealthy)) := by
  constructor
  · intro hv
    unfold runValidation
    rw [if_neg (by simp [hv])]
  · intro hv
    have hseq : (sequence services).isSome = true := by
      unfold validManifest at hv
      simp only [Bool.and_eq_true] at hv
      exact hv.2
    obtain ⟨order, horder⟩ := Option.isSome_iff_exists.mp hseq
    unfold runValidation
    rw [if_pos hv, horder]
    refine ⟨_, rfl, ?_, ?_, ?_, ?_⟩
    · simp [manifestNames]
    · intro s hs
      exact List.mem_map.mpr ⟨s, hs, rfl⟩
    · intro s _ herr
      exact classify_error_unhealthy s (outcomes s.name) herr
    · intro s _ body hshape hbody hext
      exact classify_unparseable_unhealthy s (outcomes s.name) body
        hshape hbody hext

/-- Witness for C7 at the fixture manifest and outcomes. -/
theorem validation_completeness_spec_witness :
    ∃ report,
      runValidation "production-stack" fixtureManifest fixtureOutcomes =
        some report ∧
      report.service_statuses.map Prod.fst = manifestNames fixtureManifest ∧
      (∀ s ∈ fixtureManifest,
        (s.name, classify s (fixtureOutcomes s.name)) ∈
          report.service_statuses) ∧
      (∀ s ∈ fixtureManifest, (fixtureOutcomes s.name).error = true →
        (classify s (fixtureOutcomes s.name)).status = Health.unhealthy) ∧
      (∀ s ∈ fixtureManifest, ∀ body,
        s.shape = Shape.jsonStatusField →
        (fixtureOutcomes s.name).rawBody = some body →
        extractStatusField body = none →
        (classify s (fixtureOutcomes s.name)).status = Health.unhealthy) :=
  (validation_completeness_spec "production-stack" fixtureManifest
    fixtureOutcomes).2 (by decide)

/-- C8: the classifier is a total deterministic function: on every
(service, outcome) pair it yields one of the two verdicts, and a body that
cannot be parsed under the service's expected JSON shape yields the
classification unhealthy rather than a failure. -/
theorem classify_total_spec (svc : Service) (o : ProbeOutcome) :
    ((classify svc o).status = Health.healthy ∨
      (classify svc o).status = Health.unhealthy) ∧
    (∀ body, svc.shape = Shape.jsonStatusField → o.rawBody = some body →
      extractStatusField body = none →
      (classify svc o).status = Health.unhealthy) :=
  ⟨health_cases _, fun body hshape hbody hext =>
    classify_unparseable_unhealthy svc o body hshape hbody hext⟩

/-- Witness for C8: a 2xx outcome whose body is not JSON classifies as
unhealthy under the JSON shape. -/
theorem classify_total_spec_witness :
    (classify authService malformedOutcome).status = Health.unhealthy :=
  (classify_total_spec authService malformedOutcome).2 "no json here"
    rfl rfl (by decide)

/-- C10: classification changes only the health verdict, never the
recorded probe data: the status placed in the report carries the probe's
HTTP status unchanged, and in the fixture run all five services record
HTTP status 200 — including worker-service, unhealthy despite 200. -/
theorem classify_preserves_probe_data (svc : Service) (o : ProbeOutcome) :
    (classify svc o).httpStatus = o.httpStatus ∧
    ∃ r, fixtureRun = some r ∧
      (∀ entry ∈ r.service_statuses, entry.2.httpStatus = some 200) ∧
      ∃ st, ("worker-service", st) ∈ r.service_statuses ∧
        st.status = Health.unhealthy ∧ st.httpStatus = some 200 :=
  ⟨rfl, expectedReport, fixtureRun_eq, by decide,
    ⟨{ status := Health.unhealthy, httpStatus := some 200
       criticality := Criticality.low }, by decide, rfl, rfl⟩⟩

/-- C5: for every structurally valid manifest (distinct names, known
dependency references) whose dependency graph is acyclic, the sequencer
succeeds and returns a startup order that is a permutation of all service
names, of the same length as the manifest, in which every declared
dependency precedes its dependent. -/
theorem sequence_topo_spec (services : List Service)
    (hnodup : (manifestNames services).Nodup)
    (hknown : ∀ s ∈ services, ∀ d ∈ s.dependencies,
      d ∈ manifestNames services)
    (hacyc : Acyclic services) :
    ∃ order, sequence services = some order ∧
      order.Perm (manifestNames services) ∧
      order.length = services.length ∧
      ∀ s ∈ services, ∀ d ∈ s.dependencies,
        order.indexOf d < order.indexOf s.name := by
  obtain ⟨rank, hrank⟩ := hacyc
  obtain ⟨order, heq, hnd, hsub, hlen, hinv⟩ :=
    sequenceAux_spec services hnodup hknown rank hrank services.length []
      (by simp) (by simp) (by simp) (by simp)
  have hperm : order.Perm (manifestNames services) := by
    refine (hnd.subperm hsub).perm_of_length_le ?_
    rw [hlen]
    exact Nat.le_of_eq (List.length_map _ _)
  refine ⟨order, heq, hperm, hlen, ?_⟩
  intro s hs d hd
  have hsname : s.name ∈ order :=
    hperm.mem_iff.mpr (List.mem_map.mpr ⟨s, hs, rfl⟩)
  exact (hinv s hs hsname d hd).2

/-- Witness for C5 at the fixture manifest, with an explicit rank function
showing its dependency graph acyclic. -/
theorem sequence_topo_spec_witness :
    ∃ order, sequence fixtureManifest = some order ∧
      order.Perm (manifestNames fixtureManifest) ∧
      order.length = fixtureManifest.length ∧
      ∀ s ∈ fixtureManifest, ∀ d ∈ s.dependencies,
        order.indexOf d < order.indexOf s.name :=
  sequence_topo_spec fixtureManifest (by decide) (by decide)
    ⟨fixtureRank, by decide⟩

/-- C9: the computed startup order is deterministic and independent of
probe outcomes — two runs over the same manifest with any two outcome
assignments yield the identical startup order — and at every step the
first ready service in manifest declaration order is picked (the
tie-break rule). -/
theorem startup_order_independent_spec (name : String)
    (services : List Service) (o1 o2 : String → ProbeOutcome)
    (r1 r2 : DeploymentReport)
    (h1 : runValidation name services o1 = some r1)
    (h2 : runValidation name services o2 = some r2) :
    r1.startup_order = r2.startup_order ∧
    (∀ placed : List String, ∀ t ∈ services, readyB placed t = true →
      ∃ s ∈ services, pickReady services placed = some s ∧
        readyB placed s = true ∧
        services.indexOf s ≤ services.indexOf t) := by
  constructor
  · have e1 := runValidation_startup_order name services o1 r1 h1
    have e2 := runValidation_startup_order name services o2 r2 h2
    rw [e1] at e2
    exact Option.some_inj.mp e2
  · intro placed t htmem hpt
    have hsome : (services.find? (readyB placed)).isSome :=
      List.find?_isSome.mpr ⟨t, htmem, hpt⟩
    obtain ⟨s, hs⟩ := Option.isSome_iff_exists.mp hsome
    exact ⟨s, List.mem_of_find?_eq_some hs, hs, List.find?_some hs,
      find?_first_index_le _ services s t hs htmem hpt⟩

/-- Witness for C9: the fixture-outcome run and the all-transport-error
run over the same manifest share the identical startup order. -/
theorem startup_order_independent_spec_witness :
    expectedReport.startup_order = errorReport.startup_order ∧
    (∀ placed : List String, ∀ t ∈ fixtureManifest,
      readyB placed t = true →
      ∃ s ∈ fixtureManifest, pickReady fixtureManifest placed = some s ∧
        readyB placed s = true ∧
        fixtureManifest.indexOf s ≤ fixtureManifest.indexOf t) :=
  startup_order_independent_spec "production-stack" fixtureManifest
    fixtureOutcomes allErrorOutcomes expectedReport errorReport
    fixtureRun_eq errorRun_eq

/-- Witness for C10 at the fixture's worker-service probe. -/
theorem classify_preserves_probe_data_witness :
    (classify workerService workerOutcome).httpStatus =
      workerOutcome.httpStatus ∧
    ∃ r, fixtureRun = some r ∧
      (∀ entry ∈ r.service_statuses, entry.2.httpStatus = some 200) ∧
      ∃ st, ("worker-service", st) ∈ r.service_statuses ∧
        st.status = Health.unhealthy ∧ st.httpStatus = some 200 :=
  classify_preserves_probe_data workerService workerOutcome

end DeployHealth
